import Mathlib

/-!
NavigationApplication: the planning loop, the control loop and goal admission

A shallow embedding of `Source/NavigationApplication.cpp`.

* The member variables of `NavigationApplication` that the two loops and the goal
  callback share are the fields of `Nav`.
* Every routine returns the new `Nav` together with the ordered list of its
  externally visible effects (`Effect`): mutex operations, accesses to the shared
  variables, calls into the planners, publications on `TWIST`.  Console output is
  not recorded.
* The collaborators whose code is not in this file (costmap, global planner, local
  planner, transform services, clock) answer through the arguments of each routine,
  so every statement quantifies over all their behaviours.
* Each thread is cut into steps at its blocking points (`PlanPc`, `CtlPc`); `Sys.step`
  runs one goal delivery or one step of one thread without interleaving, and
  `Sys.run` runs a sequence of them.  These steps serve to follow one given scenario.
* For statements about every run, the threads are cut once more where
  `controller_mutex` is taken and released (`FinePlanPc`, `FineCtlPc`, `FineSys`), so
  that a goal delivery or a step of the other thread can fall between the test of
  line 231 and the hand-off, and between the unlock of line 116 and `setPlan`.
  Interleavings inside one of these finer steps are not represented.
* Which mutexes are held at each access is read off the effect list of a step
  (`guardedBy`, `outsideOf`).
* `double` arithmetic is not interpreted: the operations the source applies to
  doubles are the fields of `NumLib`.
-/

namespace NS_Navigation

/-! ## Data model -/

/-- The control automaton value held in the member `state`. -/
inductive NavState where
  | PLANNING
  | CONTROLLING
  | CLEARING
  deriving DecidableEq

/-- The message type `NS_DataType::Quaternion`. -/
structure Quaternion (α : Type) where
  x : α
  y : α
  z : α
  w : α
  deriving DecidableEq

/-- The message type `NS_DataType::Point`. -/
structure Point (α : Type) where
  x : α
  y : α
  z : α
  deriving DecidableEq

/-- The pose carried by `NS_DataType::PoseStamped` (field `pose`). -/
structure PoseStamped (α : Type) where
  position : Point α
  orientation : Quaternion α
  deriving DecidableEq

/-- The three components of `NS_DataType::Twist` that `publishVelocity` sends. -/
structure Twist (α : Type) where
  linear_x : α
  linear_y : α
  angular_z : α
  deriving DecidableEq

/-- The operations on `double` and on `NS_Transform::Quaternion` / `Vector3` that the
source calls; their code is outside this file, so they are taken as given. -/
structure NumLib (α : Type) where
  /-- The literal `0`. -/
  zero : α
  /-- The literal `1`. -/
  one : α
  /-- The literal `1e-6`. -/
  lit_1e_6 : α
  /-- The literal `1e-3`. -/
  lit_1e_3 : α
  /-- The test `std::isfinite`. -/
  isfinite : α → Bool
  /-- The comparison `a < b` (so `a > b` is `lt b a`). -/
  lt : α → α → Bool
  /-- The comparison `a >= b`. -/
  ge : α → α → Bool
  /-- The comparison `a != b`. -/
  ne : α → α → Bool
  /-- The subtraction `a - b`. -/
  sub : α → α → α
  /-- The function `fabs`. -/
  fabs : α → α
  /-- The function `hypot`. -/
  hypot : α → α → α
  /-- The method `Quaternion::length2`. -/
  length2 : Quaternion α → α
  /-- The method `Quaternion::normalize`. -/
  normalize : Quaternion α → Quaternion α
  /-- The value `up.dot(up.rotate(q.getAxis(), q.getAngle()))` for `up = (0, 0, 1)`. -/
  upDotRotated : Quaternion α → α

/-- The three mutexes the source locks. -/
inductive Mutex where
  | planner_mutex
  | controller_mutex
  | costmap_mutex
  deriving DecidableEq

/-- The two condition variables. -/
inductive Cond where
  | planner_cond
  | controller_cond
  deriving DecidableEq

/-- The two transform services called by `goalToGlobalFrame`. -/
inductive Service where
  | BASE_ODOM_TF
  | ODOM_MAP_TF
  deriving DecidableEq

/-- One externally visible effect of a routine, in program order. -/
inductive Effect (α : Type) where
  | lock (m : Mutex)
  | unlock (m : Mutex)
  | timed_wait (c : Cond) (m : Mutex)
  | notify_one (c : Cond)
  | readState
  | writeState (v : NavState)
  | readTrigger
  | writeTrigger (b : Bool)
  | readGoal
  | writeGoal (g : PoseStamped α)
  | latestClear
  | planSize
  | planClear
  | planAssign (plan : List (PoseStamped α))
  | setPlan (plan : List (PoseStamped α))
  | serviceCall (svc : Service)
  | getRobotPose
  | plannerMakePlan (start goal : PoseStamped α)
  | isGoalReached
  | computeVelocityCommands
  | publish (linear_x linear_y angular_z : α)
  | runRecovery
  | sleep
  deriving DecidableEq

/-- The member variables shared by `goalCallback`, `planLoop` and `controlLoop`. -/
structure Nav (α : Type) where
  running : Bool
  state : NavState
  new_goal_trigger : Bool
  goal : PoseStamped α
  latest_plan : List (PoseStamped α)
  global_planner_plan : List (PoseStamped α)
  oscillation_pose_ : PoseStamped α
  deriving DecidableEq

/-- The configuration members read by the loops, and the value `time_default` of a
`NS_NaviCommon::Time` built by its default constructor (that class is outside this
file). -/
structure Params (α : Type) where
  planner_frequency_ : α
  controller_patience_ : Int
  oscillation_distance_ : α
  time_default : Int

/-- A transform as delivered by a transform service, acting on poses
(`odom_tf * map_tf * goal_pose` applies `map_tf` and then `odom_tf`). -/
structure Transform (α : Type) where
  act : PoseStamped α → PoseStamped α

/-- The members after `run()` has started the two threads: `state = PLANNING`,
`new_goal_trigger = false`, both plan vectors freshly allocated, `running = true`. -/
def startup {α : Type} (goal0 osc0 : PoseStamped α) : Nav α :=
  { running := true
    state := NavState.PLANNING
    new_goal_trigger := false
    goal := goal0
    latest_plan := []
    global_planner_plan := []
    oscillation_pose_ := osc0 }

/-! ## Goal admission -/

/-- The method `NavigationApplication::isQuaternionValid`. -/
def isQuaternionValid {α : Type} (L : NumLib α) (q : Quaternion α) : Bool :=
  if !L.isfinite q.x || !L.isfinite q.y || !L.isfinite q.z || !L.isfinite q.w then
    false
  else
    let tf_q := q
    if L.lt (L.length2 tf_q) L.lit_1e_6 then
      false
    else
      let tf_q := L.normalize tf_q
      let dot := L.upDotRotated tf_q
      if L.lt L.lit_1e_3 (L.fabs (L.sub dot L.one)) then
        false
      else
        true

/-- The method `NavigationApplication::goalToGlobalFrame`; `odom` and `map` are the
answers of the two transform services (`none` when the call fails). -/
def goalToGlobalFrame {α : Type} (odom map : Option (Transform α)) (goal : PoseStamped α) :
    PoseStamped α × List (Effect α) :=
  match odom with
  | none => (goal, [Effect.serviceCall Service.BASE_ODOM_TF])
  | some odom_tf =>
    match map with
    | none =>
      (goal, [Effect.serviceCall Service.BASE_ODOM_TF, Effect.serviceCall Service.ODOM_MAP_TF])
    | some map_tf =>
      (odom_tf.act (map_tf.act goal),
        [Effect.serviceCall Service.BASE_ODOM_TF, Effect.serviceCall Service.ODOM_MAP_TF])

/-- The method `NavigationApplication::goalCallback`. -/
def goalCallback {α : Type} (L : NumLib α) (odom map : Option (Transform α))
    (target_goal : PoseStamped α) (s : Nav α) : Nav α × List (Effect α) :=
  if !isQuaternionValid L target_goal.orientation then
    (s, [])
  else
    let r := goalToGlobalFrame odom map target_goal
    let new_goal := r.1
    ({ s with goal := new_goal, new_goal_trigger := true, state := NavState.PLANNING },
      r.2 ++ [Effect.lock Mutex.planner_mutex, Effect.writeGoal new_goal,
        Effect.writeTrigger true, Effect.writeState NavState.PLANNING,
        Effect.notify_one Cond.planner_cond, Effect.unlock Mutex.planner_mutex])

/-! ## Path request -/

/-- The method `NavigationApplication::makePlan`: `pose` is what
`global_costmap->getRobotPose` delivers (`none` when it returns false), `planner` is
the behaviour of `global_planner->makePlan(start, goal, plan)` on the cleared `plan`
(its return value and the content it leaves in `plan`).  The result is the return
value, the content of `plan` on return, and the effects. -/
def makePlan {α : Type} (pose : Option (PoseStamped α))
    (planner : PoseStamped α → PoseStamped α → Bool × List (PoseStamped α))
    (goal : PoseStamped α) : Bool × List (PoseStamped α) × List (Effect α) :=
  match pose with
  | none =>
    (false, [], [Effect.lock Mutex.costmap_mutex, Effect.latestClear, Effect.getRobotPose,
      Effect.unlock Mutex.costmap_mutex])
  | some start =>
    let r := planner start goal
    let plan := r.2
    let tr := [Effect.lock Mutex.costmap_mutex, Effect.latestClear, Effect.getRobotPose,
      Effect.plannerMakePlan start goal, Effect.unlock Mutex.costmap_mutex]
    if !r.1 || plan.isEmpty then
      (false, plan, tr)
    else
      (true, plan, tr)

/-! ## The planning loop -/

/-- Where the planning thread stands between two steps: at the head of
`while(running)`, inside the timed wait on `planner_cond` (holding `planner_mutex`
whenever it runs), or returned. -/
inductive PlanPc where
  | top
  | waiting
  | quit
  deriving DecidableEq

/-- One planning attempt of `planLoop`: the statements from `new_goal_trigger = false`
to the end of the loop body. -/
def planLoopBody {α : Type} (L : NumLib α) (P : Params α) (pose : Option (PoseStamped α))
    (planner : PoseStamped α → PoseStamped α → Bool × List (PoseStamped α))
    (s : Nav α) : Nav α × List (Effect α) :=
  let s1 := { s with new_goal_trigger := false }
  let r := makePlan pose planner s1.goal
  let s2 := { s1 with latest_plan := r.2.1 }
  let tr := [Effect.writeTrigger false, Effect.readGoal] ++ r.2.2
  if !r.1 && s2.state != NavState.PLANNING then
    (s2, tr ++ [Effect.readState])
  else
    let tr := if r.1 then tr else tr ++ [Effect.readState]
    ({ s2 with state := NavState.CONTROLLING, global_planner_plan := s2.latest_plan },
      tr ++ [Effect.lock Mutex.controller_mutex, Effect.writeState NavState.CONTROLLING,
        Effect.planClear, Effect.planAssign s2.latest_plan,
        Effect.notify_one Cond.controller_cond, Effect.unlock Mutex.controller_mutex]
      ++ (if L.ne P.planner_frequency_ L.zero then [Effect.sleep] else []))

/-- The wait on `planner_cond` and what follows it in `planLoop`; `pre` holds the
effects already made in this step. -/
def planLoopWait {α : Type} (L : NumLib α) (P : Params α) (pose : Option (PoseStamped α))
    (planner : PoseStamped α → PoseStamped α → Bool × List (PoseStamped α))
    (pre : List (Effect α)) (s : Nav α) : Nav α × PlanPc × List (Effect α) :=
  if !s.new_goal_trigger && s.running then
    (s, PlanPc.waiting,
      pre ++ [Effect.readTrigger, Effect.timed_wait Cond.planner_cond Mutex.planner_mutex])
  else
    let tr := pre ++ [Effect.readTrigger, Effect.unlock Mutex.planner_mutex]
    if !s.running then
      (s, PlanPc.quit, tr)
    else
      let r := planLoopBody L P pose planner s
      (r.1, PlanPc.top, tr ++ r.2)

/-- One step of the planning thread: from the head of the loop or from a wake-up of
the timed wait, up to the next timed wait, the end of the loop body, or the return. -/
def planLoopStep {α : Type} (L : NumLib α) (P : Params α) (pose : Option (PoseStamped α))
    (planner : PoseStamped α → PoseStamped α → Bool × List (PoseStamped α))
    (pc : PlanPc) (s : Nav α) : Nav α × PlanPc × List (Effect α) :=
  match pc with
  | PlanPc.quit => (s, PlanPc.quit, [])
  | PlanPc.top =>
    if !s.running then
      (s, PlanPc.quit, [])
    else
      planLoopWait L P pose planner [Effect.lock Mutex.planner_mutex] s
  | PlanPc.waiting => planLoopWait L P pose planner [] s

/-! ## The control loop -/

/-- The method `NavigationApplication::publishZeroVelocity`. -/
def publishZeroVelocity {α : Type} (L : NumLib α) : List (Effect α) :=
  [Effect.publish L.zero L.zero L.zero]

/-- The method `NavigationApplication::resetState`. -/
def resetState {α : Type} (L : NumLib α) (s : Nav α) : Nav α × List (Effect α) :=
  ({ s with state := NavState.PLANNING },
    [Effect.writeState NavState.PLANNING] ++ publishZeroVelocity L)

/-- The method `NavigationApplication::distance`. -/
def distance {α : Type} (L : NumLib α) (p1 p2 : PoseStamped α) : α :=
  L.hypot (L.sub p1.position.x p2.position.x) (L.sub p1.position.y p2.position.y)

/-- What the collaborators answer during one control tick: the pose left in
`global_pose` by `getRobotPose`, the answer of `isGoalReached`, the answer of
`computeVelocityCommands` (`none` when it returns false) and the value of
`Time::now()`. -/
structure TickIn (α : Type) where
  current_position : PoseStamped α
  goalReached : Bool
  cmd_vel : Option (Twist α)
  now : Int

/-- The body of the inner `while(!planning)` loop of `controlLoop`, with the local
`last_valid_control` given its initial value as an argument.  The result is the
members, the value of `planning`, the final value of the local
`last_valid_control`, and the effects. -/
def tickBody {α : Type} (L : NumLib α) (P : Params α) (last_valid_control : Int)
    (i : TickIn α) (s : Nav α) : Nav α × Bool × Int × List (Effect α) :=
  let s1 :=
    if L.ge (distance L i.current_position s.oscillation_pose_) P.oscillation_distance_ then
      { s with oscillation_pose_ := i.current_position }
    else s
  let pre : List (Effect α) := [Effect.getRobotPose, Effect.readState]
  match s1.state with
  | NavState.PLANNING => (s1, true, last_valid_control, pre ++ [Effect.sleep])
  | NavState.CONTROLLING =>
    if i.goalReached then
      let r := resetState L s1
      (r.1, false, last_valid_control, pre ++ [Effect.isGoalReached] ++ r.2 ++ [Effect.sleep])
    else
      match i.cmd_vel with
      | some v =>
        (s1, false, i.now,
          pre ++ [Effect.isGoalReached, Effect.computeVelocityCommands,
            Effect.publish v.linear_x v.linear_y v.angular_z, Effect.sleep])
      | none =>
        let next_control := last_valid_control + P.controller_patience_
        if i.now > next_control then
          let r := resetState L { s1 with state := NavState.CLEARING }
          (r.1, false, last_valid_control,
            pre ++ [Effect.isGoalReached, Effect.computeVelocityCommands]
              ++ publishZeroVelocity L ++ [Effect.writeState NavState.CLEARING] ++ r.2
              ++ [Effect.sleep])
        else
          let r := resetState L { s1 with state := NavState.PLANNING }
          (r.1, false, last_valid_control,
            pre ++ [Effect.isGoalReached, Effect.computeVelocityCommands]
              ++ publishZeroVelocity L ++ [Effect.writeState NavState.PLANNING] ++ r.2
              ++ [Effect.sleep])
  | NavState.CLEARING =>
    ({ s1 with state := NavState.PLANNING }, false, last_valid_control,
      pre ++ [Effect.runRecovery, Effect.writeState NavState.PLANNING, Effect.sleep])

/-- One iteration of the inner loop of `controlLoop`: `last_valid_control` is declared
inside the loop body, so every iteration starts it from a default-constructed
`Time` and its final value is dropped. -/
def controlTick {α : Type} (L : NumLib α) (P : Params α) (i : TickIn α) (s : Nav α) :
    Nav α × Bool × List (Effect α) :=
  let r := tickBody L P P.time_default i s
  (r.1, r.2.1, r.2.2.2)

/-- Where the control thread stands between two steps: at the head of
`while(running)`, inside the timed wait on `controller_cond` (holding
`controller_mutex` whenever it runs), at the head of the inner `while(!planning)`
loop, or returned. -/
inductive CtlPc where
  | top
  | waiting
  | ticking
  | quit
  deriving DecidableEq

/-- The wait on `controller_cond` and what follows it up to the inner loop;
`setPlanOk` is the answer of `local_planner->setPlan`. -/
def controlLoopWait {α : Type} (L : NumLib α) (setPlanOk : Bool)
    (pre : List (Effect α)) (s : Nav α) : Nav α × CtlPc × List (Effect α) :=
  let reads : List (Effect α) :=
    if s.state != NavState.CONTROLLING then [Effect.readState]
    else [Effect.readState, Effect.planSize]
  if (s.state != NavState.CONTROLLING || s.global_planner_plan.length == 0) && s.running then
    (s, CtlPc.waiting,
      pre ++ reads ++ [Effect.timed_wait Cond.controller_cond Mutex.controller_mutex])
  else
    let tr := pre ++ reads ++ [Effect.unlock Mutex.controller_mutex]
    if !s.running then
      (s, CtlPc.quit, tr)
    else if !setPlanOk then
      let r := resetState L s
      (r.1, CtlPc.top, tr ++ [Effect.setPlan s.global_planner_plan] ++ r.2)
    else
      (s, CtlPc.ticking, tr ++ [Effect.setPlan s.global_planner_plan])

/-- One step of the control thread: from the head of the outer loop or a wake-up of
the timed wait up to the next timed wait / the inner loop / the return, or one
iteration of the inner loop. -/
def controlLoopStep {α : Type} (L : NumLib α) (P : Params α) (setPlanOk : Bool)
    (i : TickIn α) (pc : CtlPc) (s : Nav α) : Nav α × CtlPc × List (Effect α) :=
  match pc with
  | CtlPc.quit => (s, CtlPc.quit, [])
  | CtlPc.top =>
    if !s.running then
      (s, CtlPc.quit, [])
    else
      controlLoopWait L setPlanOk [Effect.lock Mutex.controller_mutex] s
  | CtlPc.waiting => controlLoopWait L setPlanOk [] s
  | CtlPc.ticking =>
    let r := controlTick L P i s
    (r.1, if r.2.1 then CtlPc.top else CtlPc.ticking, r.2.2)

/-! ## The three actors together -/

/-- The shared members and the position of each thread. -/
structure Sys (α : Type) where
  nav : Nav α
  planPc : PlanPc
  ctlPc : CtlPc
  deriving DecidableEq

/-- One move of the system: a delivery of a goal message, a step of the planning
thread, or a step of the control thread, each with the answers of the collaborators
it may consult. -/
inductive Event (α : Type) where
  | goal (odom map : Option (Transform α)) (target_goal : PoseStamped α)
  | plan (pose : Option (PoseStamped α))
      (planner : PoseStamped α → PoseStamped α → Bool × List (PoseStamped α))
  | control (setPlanOk : Bool) (i : TickIn α)

/-- The system after one event, and the effects of that event.  A step of a thread
runs here from one blocking point to the next with nothing in between, so the
control thread's wait test, its unlock and its call of `setPlan` form one step, and
so do the planning thread's test of line 231 and its hand-off; `FineSys.step` cuts
both. -/
def Sys.step {α : Type} (L : NumLib α) (P : Params α) (e : Event α) (y : Sys α) :
    Sys α × List (Effect α) :=
  match e with
  | Event.goal odom map g =>
    let r := goalCallback L odom map g y.nav
    ({ y with nav := r.1 }, r.2)
  | Event.plan pose planner =>
    let r := planLoopStep L P pose planner y.planPc y.nav
    ({ y with nav := r.1, planPc := r.2.1 }, r.2.2)
  | Event.control ok i =>
    let r := controlLoopStep L P ok i y.ctlPc y.nav
    ({ y with nav := r.1, ctlPc := r.2.1 }, r.2.2)

/-- The system after a sequence of events, with the concatenated effects. -/
def Sys.run {α : Type} (L : NumLib α) (P : Params α) :
    List (Event α) → Sys α → Sys α × List (Effect α)
  | [], y => (y, [])
  | e :: es, y =>
    let r := Sys.step L P e y
    let q := Sys.run L P es r.1
    (q.1, r.2 ++ q.2)

/-- The system right after `run()`: members as in `startup`, both threads at the head
of their loops. -/
def Sys.init {α : Type} (goal0 osc0 : PoseStamped α) : Sys α :=
  { nav := startup goal0 osc0, planPc := PlanPc.top, ctlPc := CtlPc.top }

/-! ## Properties of effect lists -/

/-- The effect is a publication of the zero velocity `(0, 0, 0)`. -/
def isZeroPublish {α : Type} [DecidableEq α] (L : NumLib α) : Effect α → Bool
  | Effect.publish a b c => decide (a = L.zero) && decide (b = L.zero) && decide (c = L.zero)
  | _ => false

/-- The effect is a write to the member `state`. -/
def isStateWrite {α : Type} : Effect α → Bool
  | Effect.writeState _ => true
  | _ => false

/-- A zero velocity is published before the first write to `state`: scanning the
effects in order, a zero publication is met before any write to `state`. -/
def zeroBeforeFirstWrite {α : Type} [DecidableEq α] (L : NumLib α) : List (Effect α) → Bool
  | [] => false
  | e :: es =>
    if isZeroPublish L e then true
    else if isStateWrite e then false
    else zeroBeforeFirstWrite L es

/-- The last publication among the effects, if any. -/
def lastPublish {α : Type} : List (Effect α) → Option (α × α × α)
  | [] => none
  | Effect.publish a b c :: es =>
    match lastPublish es with
    | some v => some v
    | none => some (a, b, c)
  | _ :: es => lastPublish es

/-- The effect is an access to `global_planner_plan`: its size, its clearing, its
assignment, or its hand-over to `local_planner->setPlan`. -/
def isPlanAccess {α : Type} : Effect α → Bool
  | Effect.planSize => true
  | Effect.planClear => true
  | Effect.planAssign _ => true
  | Effect.setPlan _ => true
  | _ => false

/-- The effect is a write to `global_planner_plan`. -/
def isPlanWrite {α : Type} : Effect α → Bool
  | Effect.planClear => true
  | Effect.planAssign _ => true
  | _ => false

/-- The effect is a read of the size of `global_planner_plan`. -/
def isPlanSizeRead {α : Type} : Effect α → Bool
  | Effect.planSize => true
  | _ => false

/-- The effect is part of the hand-off performed by `planLoop`: the write of `state`,
a write of `global_planner_plan`, or the signal on `controller_cond`. -/
def isHandoff {α : Type} : Effect α → Bool
  | Effect.writeState _ => true
  | Effect.planClear => true
  | Effect.planAssign _ => true
  | Effect.notify_one Cond.controller_cond => true
  | _ => false

/-- The mutexes held after an effect, given those held before it.  A timed wait
returns with its mutex held again. -/
def heldAfter {α : Type} (held : List Mutex) : Effect α → List Mutex
  | Effect.lock m => m :: held
  | Effect.unlock m => held.erase m
  | _ => held

/-- Every effect selected by `p` happens while the mutex `m` is held, when the
effects start with the mutexes `held` held. -/
def guardedBy {α : Type} (m : Mutex) (p : Effect α → Bool) :
    List Mutex → List (Effect α) → Bool
  | _, [] => true
  | held, e :: es => (!p e || held.contains m) && guardedBy m p (heldAfter held e) es

/-- The effect is a write to `state` or an access to `global_planner_plan`. -/
def isStateWriteOrPlanAccess {α : Type} (e : Effect α) : Bool :=
  isStateWrite e || isPlanAccess e

/-- The effect is a write to `state` or the hand-over of the plan to `setPlan`. -/
def isStateWriteOrSetPlan {α : Type} : Effect α → Bool
  | Effect.writeState _ => true
  | Effect.setPlan _ => true
  | _ => false

/-- Every effect selected by `p` happens while the mutex `m` is not held, when the
effects start with the mutexes `held` held. -/
def outsideOf {α : Type} (m : Mutex) (p : Effect α → Bool) :
    List Mutex → List (Effect α) → Bool
  | _, [] => true
  | held, e :: es => (!p e || !held.contains m) && outsideOf m p (heldAfter held e) es

/-- The mutexes the planning thread holds when it takes a step from `pc`. -/
def PlanPc.held : PlanPc → List Mutex
  | PlanPc.waiting => [Mutex.planner_mutex]
  | _ => []

/-- The mutexes the control thread holds when it takes a step from `pc`. -/
def CtlPc.held : CtlPc → List Mutex
  | CtlPc.waiting => [Mutex.controller_mutex]
  | _ => []

/-- The first half of a planning attempt in `planLoop`: `new_goal_trigger = false`,
the call of `makePlan` and the test `!makePlan(...) && state != PLANNING`.  The flag
tells whether the thread goes on to the hand-off (`true`) or takes `continue`. -/
def planLoopAttempt {α : Type} (pose : Option (PoseStamped α))
    (planner : PoseStamped α → PoseStamped α → Bool × List (PoseStamped α))
    (s : Nav α) : Nav α × Bool × List (Effect α) :=
  let s1 := { s with new_goal_trigger := false }
  let r := makePlan pose planner s1.goal
  let s2 := { s1 with latest_plan := r.2.1 }
  let tr := [Effect.writeTrigger false, Effect.readGoal] ++ r.2.2
  if !r.1 && s2.state != NavState.PLANNING then
    (s2, false, tr ++ [Effect.readState])
  else
    (s2, true, if r.1 then tr else tr ++ [Effect.readState])

/-- The second half of a planning attempt in `planLoop`: the hand-off under
`controller_mutex` and the optional sleep. -/
def planLoopHandoff {α : Type} (L : NumLib α) (P : Params α) (s : Nav α) :
    Nav α × List (Effect α) :=
  ({ s with state := NavState.CONTROLLING, global_planner_plan := s.latest_plan },
    [Effect.lock Mutex.controller_mutex, Effect.writeState NavState.CONTROLLING,
      Effect.planClear, Effect.planAssign s.latest_plan,
      Effect.notify_one Cond.controller_cond, Effect.unlock Mutex.controller_mutex]
    ++ (if L.ne P.planner_frequency_ L.zero then [Effect.sleep] else []))

/-- Where the planning thread stands between two of the finer steps: as `PlanPc`, and
in addition before `controller_mutex.lock()` of the hand-off. -/
inductive FinePlanPc where
  | top
  | waiting
  | handoff
  | quit
  deriving DecidableEq

/-- The wait on `planner_cond` and what follows it up to the test of line 231. -/
def planLoopFineWait {α : Type} (pose : Option (PoseStamped α))
    (planner : PoseStamped α → PoseStamped α → Bool × List (PoseStamped α))
    (pre : List (Effect α)) (s : Nav α) : Nav α × FinePlanPc × List (Effect α) :=
  if !s.new_goal_trigger && s.running then
    (s, FinePlanPc.waiting,
      pre ++ [Effect.readTrigger, Effect.timed_wait Cond.planner_cond Mutex.planner_mutex])
  else
    let tr := pre ++ [Effect.readTrigger, Effect.unlock Mutex.planner_mutex]
    if !s.running then
      (s, FinePlanPc.quit, tr)
    else
      let a := planLoopAttempt pose planner s
      (a.1, if a.2.1 then FinePlanPc.handoff else FinePlanPc.top, tr ++ a.2.2)

/-- One finer step of the planning thread. -/
def planLoopFineStep {α : Type} (L : NumLib α) (P : Params α)
    (pose : Option (PoseStamped α))
    (planner : PoseStamped α → PoseStamped α → Bool × List (PoseStamped α))
    (pc : FinePlanPc) (s : Nav α) : Nav α × FinePlanPc × List (Effect α) :=
  match pc with
  | FinePlanPc.quit => (s, FinePlanPc.quit, [])
  | FinePlanPc.top =>
    if !s.running then
      (s, FinePlanPc.quit, [])
    else
      planLoopFineWait pose planner [Effect.lock Mutex.planner_mutex] s
  | FinePlanPc.waiting => planLoopFineWait pose planner [] s
  | FinePlanPc.handoff =>
    let h := planLoopHandoff L P s
    (h.1, FinePlanPc.top, h.2)

/-- Where the control thread stands between two of the finer steps: as `CtlPc`, and
in addition right after `controller_mutex.unlock()` of line 116. -/
inductive FineCtlPc where
  | top
  | waiting
  | handover
  | ticking
  | quit
  deriving DecidableEq

/-- The wait on `controller_cond` up to and including `controller_mutex.unlock()`. -/
def controlLoopFineWait {α : Type} (pre : List (Effect α)) (s : Nav α) :
    Nav α × FineCtlPc × List (Effect α) :=
  let reads : List (Effect α) :=
    if s.state != NavState.CONTROLLING then [Effect.readState]
    else [Effect.readState, Effect.planSize]
  if (s.state != NavState.CONTROLLING || s.global_planner_plan.length == 0) && s.running then
    (s, FineCtlPc.waiting,
      pre ++ reads ++ [Effect.timed_wait Cond.controller_cond Mutex.controller_mutex])
  else
    (s, FineCtlPc.handover, pre ++ reads ++ [Effect.unlock Mutex.controller_mutex])

/-- The statements of `controlLoop` between `controller_mutex.unlock()` and the inner
loop: the test of `running` and the hand-over of the plan to `setPlan`. -/
def controlLoopHandover {α : Type} (L : NumLib α) (setPlanOk : Bool) (s : Nav α) :
    Nav α × FineCtlPc × List (Effect α) :=
  if !s.running then
    (s, FineCtlPc.quit, [])
  else if !setPlanOk then
    let r := resetState L s
    (r.1, FineCtlPc.top, [Effect.setPlan s.global_planner_plan] ++ r.2)
  else
    (s, FineCtlPc.ticking, [Effect.setPlan s.global_planner_plan])

/-- One finer step of the control thread. -/
def controlLoopFineStep {α : Type} (L : NumLib α) (P : Params α) (setPlanOk : Bool)
    (i : TickIn α) (pc : FineCtlPc) (s : Nav α) : Nav α × FineCtlPc × List (Effect α) :=
  match pc with
  | FineCtlPc.quit => (s, FineCtlPc.quit, [])
  | FineCtlPc.top =>
    if !s.running then
      (s, FineCtlPc.quit, [])
    else
      controlLoopFineWait [Effect.lock Mutex.controller_mutex] s
  | FineCtlPc.waiting => controlLoopFineWait [] s
  | FineCtlPc.handover => controlLoopHandover L setPlanOk s
  | FineCtlPc.ticking =>
    let r := controlTick L P i s
    (r.1, if r.2.1 then FineCtlPc.top else FineCtlPc.ticking, r.2.2)

/-- The shared members and the position of each thread, for the finer steps. -/
structure FineSys (α : Type) where
  nav : Nav α
  planPc : FinePlanPc
  ctlPc : FineCtlPc
  deriving DecidableEq

/-- The system after one event taken with the finer steps, and its effects. -/
def FineSys.step {α : Type} (L : NumLib α) (P : Params α) (e : Event α) (y : FineSys α) :
    FineSys α × List (Effect α) :=
  match e with
  | Event.goal odom map g =>
    let r := goalCallback L odom map g y.nav
    ({ y with nav := r.1 }, r.2)
  | Event.plan pose planner =>
    let r := planLoopFineStep L P pose planner y.planPc y.nav
    ({ y with nav := r.1, planPc := r.2.1 }, r.2.2)
  | Event.control ok i =>
    let r := controlLoopFineStep L P ok i y.ctlPc y.nav
    ({ y with nav := r.1, ctlPc := r.2.1 }, r.2.2)

/-- The system after a sequence of events taken with the finer steps. -/
def FineSys.run {α : Type} (L : NumLib α) (P : Params α) :
    List (Event α) → FineSys α → FineSys α × List (Effect α)
  | [], y => (y, [])
  | e :: es, y =>
    let r := FineSys.step L P e y
    let q := FineSys.run L P es r.1
    (q.1, r.2 ++ q.2)

/-- The system right after `run()`, for the finer steps. -/
def FineSys.init {α : Type} (goal0 osc0 : PoseStamped α) : FineSys α :=
  { nav := startup goal0 osc0, planPc := FinePlanPc.top, ctlPc := FineCtlPc.top }

/-- The integer square root by Newton iteration, `fuel` rounds from the guess `g`. -/
def isqrtAux : Nat → Nat → Nat → Nat
  | 0, _, g => g
  | fuel + 1, n, g =>
    let g1 := (g + n / g) / 2
    if g1 < g then isqrtAux fuel n g1 else g

/-- The integer square root. -/
def isqrt (n : Nat) : Nat :=
  if n = 0 then 0 else isqrtAux 64 n n

/-- Modelled from the spec: `double` and the classes `NS_Transform::Quaternion` and
`NS_Transform::Vector3` are not in this file.  This instance reads a finite double as a
whole number of millionths and `none` as a non-finite value; `normalize` is the
identity and `upDotRotated` is the scale-free value `1 - 2(x²+y²)/(x²+y²+z²+w²)`.
It serves to evaluate the model on concrete inputs. -/
def fixedLib : NumLib (Option Int) where
  zero := some 0
  one := some 1000000
  lit_1e_6 := some 1
  lit_1e_3 := some 1000
  isfinite := fun a => a.isSome
  lt := fun a b =>
    match a, b with
    | some u, some v => decide (u < v)
    | _, _ => false
  ge := fun a b =>
    match a, b with
    | some u, some v => decide (u ≥ v)
    | _, _ => false
  ne := fun a b =>
    match a, b with
    | some u, some v => decide (u ≠ v)
    | _, _ => true
  sub := fun a b =>
    match a, b with
    | some u, some v => some (u - v)
    | _, _ => none
  fabs := fun a =>
    match a with
    | some u => some (Int.ofNat u.natAbs)
    | none => none
  hypot := fun a b =>
    match a, b with
    | some u, some v => some (Int.ofNat (isqrt (u * u + v * v).natAbs))
    | _, _ => none
  length2 := fun q =>
    match q.x, q.y, q.z, q.w with
    | some x, some y, some z, some w => some ((x * x + y * y + z * z + w * w) / 1000000)
    | _, _, _, _ => none
  normalize := fun q => q
  upDotRotated := fun q =>
    match q.x, q.y, q.z, q.w with
    | some x, some y, some z, some w =>
      if x * x + y * y + z * z + w * w = 0 then none
      else some (1000000 - 2000000 * (x * x + y * y) / (x * x + y * y + z * z + w * w))
    | _, _, _, _ => none

/-- The identity orientation `(0, 0, 0, 1)`. -/
def identityQ : Quaternion (Option Int) :=
  { x := some 0, y := some 0, z := some 0, w := some 1000000 }

/-- The pose at the origin with the identity orientation. -/
def originPose : PoseStamped (Option Int) :=
  { position := { x := some 0, y := some 0, z := some 0 }, orientation := identityQ }

/-- A pose one unit along `x`, with the identity orientation. -/
def aheadPose : PoseStamped (Option Int) :=
  { position := { x := some 1000000, y := some 0, z := some 0 }, orientation := identityQ }

/-- A goal whose orientation is the zero quaternion. -/
def zeroNormGoal : PoseStamped (Option Int) :=
  { position := { x := some 0, y := some 0, z := some 0 },
    orientation := { x := some 0, y := some 0, z := some 0, w := some 0 } }

/-- A goal whose orientation has a non-finite component. -/
def nonFiniteGoal : PoseStamped (Option Int) :=
  { position := { x := some 0, y := some 0, z := some 0 },
    orientation := { x := none, y := some 0, z := some 0, w := some 1000000 } }

/-- Event-driven planning, a patience of 5 time units, an oscillation distance of
half a unit, and a default-constructed `Time` equal to 0. -/
def params5 : Params (Option Int) :=
  { planner_frequency_ := some 0
    controller_patience_ := 5
    oscillation_distance_ := some 500000
    time_default := 0 }

/-- A global planner that finds nothing: it reports failure and leaves the plan empty. -/
def plannerFails : PoseStamped (Option Int) → PoseStamped (Option Int) →
    Bool × List (PoseStamped (Option Int)) :=
  fun _ _ => (false, [])

/-- A global planner that reports success and leaves an empty plan. -/
def plannerEmpty : PoseStamped (Option Int) → PoseStamped (Option Int) →
    Bool × List (PoseStamped (Option Int)) :=
  fun _ _ => (true, [])

/-- A global planner that returns the one-waypoint plan made of the start pose. -/
def plannerStart : PoseStamped (Option Int) → PoseStamped (Option Int) →
    Bool × List (PoseStamped (Option Int)) :=
  fun start _ => (true, [start])

/-- The members while a plan is being followed: `CONTROLLING` with a one-waypoint
active plan and no pending goal. -/
def navControlling : Nav (Option Int) :=
  { running := true
    state := NavState.CONTROLLING
    new_goal_trigger := false
    goal := aheadPose
    latest_plan := [aheadPose]
    global_planner_plan := [aheadPose]
    oscillation_pose_ := originPose }

/-- A control tick in which the local planner yields the velocity `(0.1, 0, 0)` at
time `now`. -/
def tickOk (now : Int) : TickIn (Option Int) :=
  { current_position := originPose
    goalReached := false
    cmd_vel := some { linear_x := some 100000, linear_y := some 0, angular_z := some 0 }
    now := now }

/-- A control tick in which the local planner yields no velocity at time `now`. -/
def tickNoVelocity (now : Int) : TickIn (Option Int) :=
  { current_position := originPose
    goalReached := false
    cmd_vel := none
    now := now }

/-- A control tick in which the local planner reports the goal reached. -/
def tickGoalReached (now : Int) : TickIn (Option Int) :=
  { current_position := originPose
    goalReached := true
    cmd_vel := none
    now := now }

/-! ## The numeric library read over the real numbers -/

/-- Modelled from the spec: the class `NS_Transform::Vector3` is not in this file; a
vector of three real components. -/
structure Vector3 where
  x : ℝ
  y : ℝ
  z : ℝ

/-- Modelled from the spec: `Vector3::dot` is not in this file; the scalar product. -/
noncomputable def Vector3.dot (a b : Vector3) : ℝ :=
  a.x * b.x + a.y * b.y + a.z * b.z

/-- Scenario A as a run: a goal is delivered, the planning thread plans it and the
global planner returns the one-waypoint plan made of the start pose, the control
thread wakes and hands the plan to the local planner (the answers `i0` are not
consulted by that step), then takes two ticks with the answers `i1` and `i2`. -/
def scenarioA {α : Type} (odom map : Option (Transform α)) (goal start : PoseStamped α)
    (i0 i1 i2 : TickIn α) : List (Event α) :=
  [Event.goal odom map goal,
    Event.plan (some start) (fun st _ => (true, [st])),
    Event.control true i0,
    Event.control true i1,
    Event.control true i2]

/-! ## Path request: `makePlan` -/

/-- Claim C9.  `makePlan` returns true exactly when the robot pose is available and the
global planner reports success with a non-empty sequence; on success the plan it
leaves is the planner's sequence and is non-empty; when the pose is unavailable the
plan is left empty and the global planner is not invoked. -/
theorem makePlan_result {α : Type} (pose : Option (PoseStamped α))
    (planner : PoseStamped α → PoseStamped α → Bool × List (PoseStamped α))
    (goal : PoseStamped α) :
    ((makePlan pose planner goal).1 = true ↔
        ∃ start, pose = some start ∧ (planner start goal).1 = true
          ∧ (planner start goal).2 ≠ [])
      ∧ ((makePlan pose planner goal).1 = true →
        ∃ start, pose = some start ∧ (makePlan pose planner goal).2.1 = (planner start goal).2
          ∧ (makePlan pose planner goal).2.1 ≠ [])
      ∧ (pose = none →
        (makePlan pose planner goal).1 = false ∧ (makePlan pose planner goal).2.1 = []
          ∧ ∀ a b, Effect.plannerMakePlan a b ∉ (makePlan pose planner goal).2.2) := by
  cases pose with
  | none => simp [makePlan]
  | some start =>
    cases hok : (planner start goal).1 <;> cases hpl : (planner start goal).2 <;>
      simp [makePlan, hok, hpl]

/-- Claim C9, an instance: with the pose available and a planner returning the
one-waypoint plan, `makePlan` succeeds with that plan; without a pose it fails with an
empty plan and no planner call. -/
theorem makePlan_result_witness :
    (∃ start, some originPose = some start
        ∧ (makePlan (some originPose) plannerStart aheadPose).2.1
          = (plannerStart start aheadPose).2
        ∧ (makePlan (some originPose) plannerStart aheadPose).2.1 ≠ [])
      ∧ ((makePlan (none : Option (PoseStamped (Option Int))) plannerStart aheadPose).1 = false
        ∧ (makePlan (none : Option (PoseStamped (Option Int))) plannerStart aheadPose).2.1 = []
        ∧ ∀ a b, Effect.plannerMakePlan a b ∉
          (makePlan (none : Option (PoseStamped (Option Int))) plannerStart aheadPose).2.2) :=
  ⟨(makePlan_result (some originPose) plannerStart aheadPose).2.1 (by decide),
    (makePlan_result none plannerStart aheadPose).2.2 rfl⟩

/-! ## Goal admission -/

/-- Claim C8.  A goal whose orientation has a non-finite component, or whose squared
norm tests below `1e-6`, is refused by `isQuaternionValid` (which returns false), and
`goalCallback` on it returns the members unchanged with no effect at all: the stored
goal, `new_goal_trigger` and `state` keep their values, no transform service is
called and `planner_cond` is not signalled. -/
theorem malformed_goal_rejected {α : Type} (L : NumLib α) (odom map : Option (Transform α))
    (target_goal : PoseStamped α) (s : Nav α)
    (h : L.isfinite target_goal.orientation.x = false
      ∨ L.isfinite target_goal.orientation.y = false
      ∨ L.isfinite target_goal.orientation.z = false
      ∨ L.isfinite target_goal.orientation.w = false
      ∨ L.lt (L.length2 target_goal.orientation) L.lit_1e_6 = true) :
    isQuaternionValid L target_goal.orientation = false
      ∧ goalCallback L odom map target_goal s = (s, []) := by
  have hv : isQuaternionValid L target_goal.orientation = false := by
    unfold isQuaternionValid
    rcases h with h | h | h | h | h <;> simp [h]
  exact ⟨hv, by simp [goalCallback, hv]⟩

/-- Claim C8, two instances: the goal with a non-finite orientation component and the
goal with the zero quaternion are both dropped while a plan is being followed. -/
theorem malformed_goal_rejected_witness :
    (isQuaternionValid fixedLib nonFiniteGoal.orientation = false
        ∧ goalCallback fixedLib none none nonFiniteGoal navControlling = (navControlling, []))
      ∧ (isQuaternionValid fixedLib zeroNormGoal.orientation = false
        ∧ goalCallback fixedLib none none zeroNormGoal navControlling = (navControlling, [])) :=
  ⟨malformed_goal_rejected fixedLib none none nonFiniteGoal navControlling (Or.inl (by decide)),
    malformed_goal_rejected fixedLib none none zeroNormGoal navControlling
      (Or.inr (Or.inr (Or.inr (Or.inr (by decide)))))⟩

/-! ## Step lemmas -/

/-- The last publication of a concatenation is that of the second part when it has
one, and that of the first part otherwise. -/
theorem lastPublish_append {α : Type} (a b : List (Effect α)) :
    lastPublish (a ++ b) = (lastPublish b).orElse (fun _ => lastPublish a) := by
  induction a with
  | nil => cases h : lastPublish b <;> simp [h, lastPublish]
  | cons e es ih =>
    cases e <;> cases hb : lastPublish b <;> cases ha : lastPublish es <;>
      simp_all [lastPublish]

/-- The path request publishes nothing. -/
theorem lastPublish_makePlan {α : Type} (pose : Option (PoseStamped α))
    (planner : PoseStamped α → PoseStamped α → Bool × List (PoseStamped α))
    (goal : PoseStamped α) : lastPublish (makePlan pose planner goal).2.2 = none := by
  cases pose with
  | none => simp [makePlan, lastPublish]
  | some start =>
    unfold makePlan
    simp only []
    split <;> simp [lastPublish]

/-- The goal callback publishes nothing. -/
theorem lastPublish_goalCallback {α : Type} (L : NumLib α) (odom map : Option (Transform α))
    (g : PoseStamped α) (s : Nav α) : lastPublish (goalCallback L odom map g s).2 = none := by
  unfold goalCallback
  split
  · simp [lastPublish]
  · cases odom <;> cases map <;> simp [goalToGlobalFrame, lastPublish]

/-- A step of the planning thread publishes nothing. -/
theorem lastPublish_planLoopStep {α : Type} (L : NumLib α) (P : Params α)
    (pose : Option (PoseStamped α))
    (planner : PoseStamped α → PoseStamped α → Bool × List (PoseStamped α))
    (pc : PlanPc) (s : Nav α) : lastPublish (planLoopStep L P pose planner pc s).2.2 = none := by
  have hb : lastPublish (planLoopBody L P pose planner s).2 = none := by
    unfold planLoopBody
    simp only []
    split
    · simp [lastPublish_append, lastPublish, lastPublish_makePlan]
    · split <;> split <;>
        simp [lastPublish_append, lastPublish, lastPublish_makePlan]
  have hw : ∀ pre, lastPublish pre = none →
      lastPublish (planLoopWait L P pose planner pre s).2.2 = none := by
    intro pre hpre
    unfold planLoopWait
    simp only []
    split
    · simp [lastPublish_append, lastPublish, hpre]
    · split <;> simp [lastPublish_append, lastPublish, hpre, hb]
  cases pc with
  | quit => simp [planLoopStep, lastPublish]
  | waiting => exact hw [] rfl
  | top =>
    unfold planLoopStep
    simp only []
    split
    · simp [lastPublish]
    · exact hw _ (by simp [lastPublish])

/-- An admitted goal is stored, raises the trigger and sets `state` to `PLANNING`. -/
theorem goalCallback_valid {α : Type} (L : NumLib α) (odom map : Option (Transform α))
    (g : PoseStamped α) (s : Nav α) (hv : isQuaternionValid L g.orientation = true) :
    (goalCallback L odom map g s).1
      = { s with goal := (goalToGlobalFrame odom map g).1, new_goal_trigger := true,
                 state := NavState.PLANNING } := by
  simp [goalCallback, hv]

/-- A planning step that reaches `makePlan`, with `makePlan` succeeding, hands the
plan off: `state` becomes `CONTROLLING` and both plan vectors hold the new plan. -/
theorem planLoopStep_success {α : Type} (L : NumLib α) (P : Params α)
    (pose : Option (PoseStamped α))
    (planner : PoseStamped α → PoseStamped α → Bool × List (PoseStamped α))
    (pc : PlanPc) (s : Nav α) (hpc : pc ≠ PlanPc.quit) (hr : s.running = true)
    (ht : s.new_goal_trigger = true) (hok : (makePlan pose planner s.goal).1 = true) :
    (planLoopStep L P pose planner pc s).1
        = { s with new_goal_trigger := false
                   latest_plan := (makePlan pose planner s.goal).2.1
                   state := NavState.CONTROLLING
                   global_planner_plan := (makePlan pose planner s.goal).2.1 }
      ∧ (planLoopStep L P pose planner pc s).2.1 = PlanPc.top := by
  cases pc <;> simp_all [planLoopStep, planLoopWait, planLoopBody]

/-- The control thread leaves its wait and enters the inner loop when it finds
`CONTROLLING` with a non-empty plan and the local planner accepts the plan. -/
theorem controlLoopStep_enter {α : Type} (L : NumLib α) (P : Params α) (i : TickIn α)
    (pc : CtlPc) (s : Nav α) (hpc : pc = CtlPc.top ∨ pc = CtlPc.waiting)
    (hr : s.running = true) (hs : s.state = NavState.CONTROLLING)
    (hp : s.global_planner_plan ≠ []) :
    (controlLoopStep L P true i pc s).1 = s
      ∧ (controlLoopStep L P true i pc s).2.1 = CtlPc.ticking
      ∧ lastPublish (controlLoopStep L P true i pc s).2.2 = none := by
  rcases hpc with h | h <;> subst h <;>
    simp [controlLoopStep, controlLoopWait, hr, hs, hp, lastPublish]

/-- A tick that finds `PLANNING` sets `planning`, so the inner loop is left; it
publishes nothing and leaves `state` as it is. -/
theorem controlLoopStep_tick_planning {α : Type} (L : NumLib α) (P : Params α) (ok : Bool)
    (i : TickIn α) (s : Nav α) (hs : s.state = NavState.PLANNING) :
    (controlLoopStep L P ok i CtlPc.ticking s).1.state = NavState.PLANNING
      ∧ (controlLoopStep L P ok i CtlPc.ticking s).2.1 = CtlPc.top
      ∧ lastPublish (controlLoopStep L P ok i CtlPc.ticking s).2.2 = none := by
  unfold controlLoopStep controlTick tickBody
  cases hge : L.ge (distance L i.current_position s.oscillation_pose_)
    P.oscillation_distance_ <;>
    simp [hs, lastPublish]

/-! ## The control tick -/

/-- The oscillation bookkeeping at the head of a tick does not touch `state`. -/
theorem tickBody_planning_flag {α : Type} (L : NumLib α) (P : Params α) (t0 : Int)
    (i : TickIn α) (s : Nav α) :
    (tickBody L P t0 i s).2.1 = decide (s.state = NavState.PLANNING) := by
  unfold tickBody
  cases hge : L.ge (distance L i.current_position s.oscillation_pose_) P.oscillation_distance_ <;>
    cases hs : s.state <;> cases hg : i.goalReached <;> cases hc : i.cmd_vel <;>
    simp [hs, hg, resetState] <;> split <;> simp

/-- A step of the control thread from the inner loop is one tick. -/
theorem controlLoopStep_ticking {α : Type} (L : NumLib α) (P : Params α) (ok : Bool)
    (i : TickIn α) (s : Nav α) :
    controlLoopStep L P ok i CtlPc.ticking s
      = ((controlTick L P i s).1,
          if (controlTick L P i s).2.1 then CtlPc.top else CtlPc.ticking,
          (controlTick L P i s).2.2) := rfl

/-- The tick in which the goal is found reached: its effects, and the members after
it. -/
theorem controlTick_goalReached {α : Type} (L : NumLib α) (P : Params α) (i : TickIn α)
    (s : Nav α) (hs : s.state = NavState.CONTROLLING) (hg : i.goalReached = true) :
    (controlTick L P i s).2.2
        = [Effect.getRobotPose, Effect.readState, Effect.isGoalReached,
            Effect.writeState NavState.PLANNING, Effect.publish L.zero L.zero L.zero,
            Effect.sleep]
      ∧ (controlTick L P i s).1.state = NavState.PLANNING
      ∧ (controlTick L P i s).2.1 = false := by
  refine ⟨?_, ?_, ?_⟩
  · unfold controlTick tickBody
    cases hge : L.ge (distance L i.current_position s.oscillation_pose_)
      P.oscillation_distance_ <;>
      simp [hs, hg, resetState, publishZeroVelocity]
  · unfold controlTick tickBody
    cases hge : L.ge (distance L i.current_position s.oscillation_pose_)
      P.oscillation_distance_ <;>
      simp [hs, hg, resetState]
  · simp [controlTick, tickBody_planning_flag, hs]

/-- Claim C10.  In a `CONTROLLING` tick in which `isGoalReached` answers true, the effects
are exactly: pose read, state read, `isGoalReached`, write `state = PLANNING`, publish
`(0, 0, 0)`, sleep; so `computeVelocityCommands` is not called, no planner velocity is
published, `state` becomes `PLANNING`, the last publication is the zero velocity, and
the tick after it leaves the inner loop.  In scenario A (valid goal admitted,
one-waypoint plan, goal reached on the first tick) the run up to that tick ends with
`state = PLANNING` and the zero velocity published last, and the next tick leaves the
inner loop with both unchanged. -/
theorem goal_reached_ends_stopped {α : Type} (L : NumLib α) (P : Params α) :
    (∀ (i : TickIn α) (s : Nav α), s.state = NavState.CONTROLLING → i.goalReached = true →
        (controlTick L P i s).2.2
            = [Effect.getRobotPose, Effect.readState, Effect.isGoalReached,
                Effect.writeState NavState.PLANNING, Effect.publish L.zero L.zero L.zero,
                Effect.sleep]
          ∧ Effect.computeVelocityCommands ∉ (controlTick L P i s).2.2
          ∧ (controlTick L P i s).1.state = NavState.PLANNING
          ∧ (controlTick L P i s).2.1 = false
          ∧ lastPublish (controlTick L P i s).2.2 = some (L.zero, L.zero, L.zero)
          ∧ ∀ (ok : Bool) (i2 : TickIn α),
              (controlLoopStep L P ok i2 CtlPc.ticking (controlTick L P i s).1).2.1 = CtlPc.top)
      ∧ (∀ (odom map : Option (Transform α)) (goal start goal0 osc0 : PoseStamped α)
          (i0 i1 i2 : TickIn α),
          isQuaternionValid L goal.orientation = true → i1.goalReached = true →
          (Sys.run L P (scenarioA odom map goal start i0 i1 i2).dropLast
              (Sys.init goal0 osc0)).1.nav.state = NavState.PLANNING
            ∧ (Sys.run L P (scenarioA odom map goal start i0 i1 i2).dropLast
              (Sys.init goal0 osc0)).1.ctlPc = CtlPc.ticking
            ∧ lastPublish (Sys.run L P (scenarioA odom map goal start i0 i1 i2).dropLast
              (Sys.init goal0 osc0)).2 = some (L.zero, L.zero, L.zero)
            ∧ (Sys.run L P (scenarioA odom map goal start i0 i1 i2)
              (Sys.init goal0 osc0)).1.nav.state = NavState.PLANNING
            ∧ (Sys.run L P (scenarioA odom map goal start i0 i1 i2)
              (Sys.init goal0 osc0)).1.ctlPc = CtlPc.top
            ∧ lastPublish (Sys.run L P (scenarioA odom map goal start i0 i1 i2)
              (Sys.init goal0 osc0)).2 = some (L.zero, L.zero, L.zero)) := by
  constructor
  · intro i s hs hg
    obtain ⟨htr, hst, hpl⟩ := controlTick_goalReached L P i s hs hg
    refine ⟨htr, ?_, hst, hpl, ?_, ?_⟩
    · rw [htr]; simp
    · rw [htr]; simp [lastPublish]
    · intro ok i2
      exact (controlLoopStep_tick_planning L P ok i2 _ hst).2.1
  · intro odom map goal start goal0 osc0 i0 i1 i2 hv hg
    simp only [scenarioA, List.dropLast, Sys.run, Sys.step, Sys.init, List.append_nil]
    have h1 := goalCallback_valid L odom map goal (startup goal0 osc0) hv
    have hT1 := lastPublish_goalCallback L odom map goal (startup goal0 osc0)
    generalize goalCallback L odom map goal (startup goal0 osc0) = r1 at h1 hT1 ⊢
    have hr1 : r1.1.running = true := by rw [h1]; rfl
    have ht1 : r1.1.new_goal_trigger = true := by rw [h1]
    have hok : (makePlan (some start) (fun st _ => (true, [st])) r1.1.goal).1 = true := by
      simp [makePlan]
    obtain ⟨h2, -⟩ := planLoopStep_success L P (some start) (fun st _ => (true, [st]))
      PlanPc.top r1.1 (by decide) hr1 ht1 hok
    have hT2 := lastPublish_planLoopStep L P (some start) (fun st _ => (true, [st]))
      PlanPc.top r1.1
    generalize planLoopStep L P (some start) (fun st _ => (true, [st])) PlanPc.top r1.1 = r2
      at h2 hT2 ⊢
    have hr2 : r2.1.running = true := by rw [h2]; exact hr1
    have hs2 : r2.1.state = NavState.CONTROLLING := by rw [h2]
    have hp2 : r2.1.global_planner_plan ≠ [] := by rw [h2]; simp [makePlan]
    obtain ⟨h3, h3pc, hT3⟩ := controlLoopStep_enter L P i0 CtlPc.top r2.1 (Or.inl rfl) hr2 hs2 hp2
    generalize controlLoopStep L P true i0 CtlPc.top r2.1 = r3 at h3 h3pc hT3 ⊢
    rw [h3pc, h3, controlLoopStep_ticking]
    obtain ⟨htr, hst, hpl⟩ := controlTick_goalReached L P i1 r2.1 hs2 hg
    obtain ⟨h5s, h5pc, hT5⟩ := controlLoopStep_tick_planning L P true i2 _ hst
    simp only [hpl, Bool.false_eq_true, if_false]
    refine ⟨hst, trivial, ?_, h5s, h5pc, ?_⟩
    · simp [lastPublish_append, hT1, hT2, hT3, htr, lastPublish]
    · simp [lastPublish_append, hT1, hT2, hT3, hT5, htr, lastPublish]

/-- Claim C10, instances: a goal-reached tick while a plan is followed, and scenario A
with the goal at the origin, the identity orientation and the one-waypoint plan made
of the start pose. -/
theorem goal_reached_ends_stopped_witness :
    ((controlTick fixedLib params5 (tickGoalReached 2) navControlling).1.state
        = NavState.PLANNING
      ∧ lastPublish (controlTick fixedLib params5 (tickGoalReached 2) navControlling).2.2
        = some (fixedLib.zero, fixedLib.zero, fixedLib.zero))
      ∧ ((Sys.run fixedLib params5
          (scenarioA none none originPose originPose (tickOk 1) (tickGoalReached 2)
            (tickOk 3)).dropLast (Sys.init originPose originPose)).1.nav.state
          = NavState.PLANNING
        ∧ lastPublish (Sys.run fixedLib params5
          (scenarioA none none originPose originPose (tickOk 1) (tickGoalReached 2)
            (tickOk 3)).dropLast (Sys.init originPose originPose)).2
          = some (fixedLib.zero, fixedLib.zero, fixedLib.zero)
        ∧ (Sys.run fixedLib params5
          (scenarioA none none originPose originPose (tickOk 1) (tickGoalReached 2)
            (tickOk 3)) (Sys.init originPose originPose)).1.ctlPc = CtlPc.top) :=
  have h1 := (goal_reached_ends_stopped fixedLib params5).1 (tickGoalReached 2) navControlling
    rfl rfl
  have h2 := (goal_reached_ends_stopped fixedLib params5).2 none none originPose originPose
    originPose originPose (tickOk 1) (tickGoalReached 2) (tickOk 3) (by decide) rfl
  ⟨⟨h1.2.2.1, h1.2.2.2.2.1⟩, h2.1, h2.2.2.1, h2.2.2.2.2.1⟩

/-! ## Control failures -/

/-- The tick in which `computeVelocityCommands` fails: the effects are the reads, the
two planner calls, a zero publication, the write of `CLEARING` or of `PLANNING`
according to `now > time_default + controller_patience_`, and then `resetState`. -/
theorem controlTick_velocity_failure {α : Type} (L : NumLib α) (P : Params α) (i : TickIn α)
    (s : Nav α) (hs : s.state = NavState.CONTROLLING) (hg : i.goalReached = false)
    (hc : i.cmd_vel = none) :
    (controlTick L P i s).2.2
        = [Effect.getRobotPose, Effect.readState, Effect.isGoalReached,
            Effect.computeVelocityCommands, Effect.publish L.zero L.zero L.zero,
            Effect.writeState
              (if i.now > P.time_default + P.controller_patience_ then NavState.CLEARING
                else NavState.PLANNING),
            Effect.writeState NavState.PLANNING, Effect.publish L.zero L.zero L.zero,
            Effect.sleep]
      ∧ (controlTick L P i s).1.state = NavState.PLANNING := by
  unfold controlTick tickBody
  cases hge : L.ge (distance L i.current_position s.oscillation_pose_)
    P.oscillation_distance_ <;>
    by_cases hn : i.now > P.time_default + P.controller_patience_ <;>
    simp [hs, hg, hc, hn, resetState, publishZeroVelocity]

/-- Claim C3, the behaviour of the code.  Take a `CONTROLLING` tick in which
`computeVelocityCommands` succeeds at time `i0.now`, followed by a tick in which it
fails at time `i.now`.  The first tick ends with its local `last_valid_control` equal
to `i0.now` and leaves `state` at `CONTROLLING`.  The failing tick writes `CLEARING`
exactly when `i.now > time_default + controller_patience_`, and `PLANNING` otherwise:
its `last_valid_control` is a fresh default-constructed `Time`, so the time recorded by
the first tick plays no part. -/
theorem patience_measured_from_default_time {α : Type} (L : NumLib α) (P : Params α)
    (i0 i : TickIn α) (v : Twist α) (s : Nav α) (hs : s.state = NavState.CONTROLLING)
    (h0g : i0.goalReached = false) (h0c : i0.cmd_vel = some v)
    (hg : i.goalReached = false) (hc : i.cmd_vel = none) :
    (tickBody L P P.time_default i0 s).2.2.1 = i0.now
      ∧ (controlTick L P i0 s).1.state = NavState.CONTROLLING
      ∧ (controlTick L P i (controlTick L P i0 s).1).2.2
        = [Effect.getRobotPose, Effect.readState, Effect.isGoalReached,
            Effect.computeVelocityCommands, Effect.publish L.zero L.zero L.zero,
            Effect.writeState
              (if i.now > P.time_default + P.controller_patience_ then NavState.CLEARING
                else NavState.PLANNING),
            Effect.writeState NavState.PLANNING, Effect.publish L.zero L.zero L.zero,
            Effect.sleep] := by
  have h1 : (tickBody L P P.time_default i0 s).2.2.1 = i0.now := by
    unfold tickBody
    cases hge : L.ge (distance L i0.current_position s.oscillation_pose_)
      P.oscillation_distance_ <;>
      simp [hs, h0g, h0c]
  have h2 : (controlTick L P i0 s).1.state = NavState.CONTROLLING := by
    unfold controlTick tickBody
    cases hge : L.ge (distance L i0.current_position s.oscillation_pose_)
      P.oscillation_distance_ <;>
      simp [hs, h0g, h0c]
  exact ⟨h1, h2, (controlTick_velocity_failure L P i _ h2 hg hc).1⟩

/-- Claim C3, evaluated at the failing input: patience 5, a successful tick at time 100,
then a failing tick at time 101.  The elapsed time 1 is within the patience, the first
tick did record 100, and yet the failing tick writes `CLEARING` (the test made is
`101 > 0 + 5`). -/
theorem patience_measured_from_default_time_witness :
    (101 : Int) - 100 ≤ params5.controller_patience_
      ∧ (tickBody fixedLib params5 params5.time_default (tickOk 100) navControlling).2.2.1
        = 100
      ∧ (controlTick fixedLib params5 (tickNoVelocity 101)
          (controlTick fixedLib params5 (tickOk 100) navControlling).1).2.2
        = [Effect.getRobotPose, Effect.readState, Effect.isGoalReached,
            Effect.computeVelocityCommands, Effect.publish (some 0) (some 0) (some 0),
            Effect.writeState NavState.CLEARING, Effect.writeState NavState.PLANNING,
            Effect.publish (some 0) (some 0) (some 0), Effect.sleep] :=
  have h := patience_measured_from_default_time fixedLib params5 (tickOk 100)
    (tickNoVelocity 101) { linear_x := some 100000, linear_y := some 0, angular_z := some 0 }
    navControlling rfl rfl rfl rfl rfl
  ⟨by decide, h.1, h.2.2⟩

/-- Claim C5, the behaviour of the code: in every tick that writes `CLEARING`, the write
of `PLANNING` follows at once, `runRecovery` is not called in the tick, and the tick
ends with `state = PLANNING`. -/
theorem clearing_left_without_recovery {α : Type} (L : NumLib α) (P : Params α)
    (i : TickIn α) (s : Nav α)
    (h : Effect.writeState NavState.CLEARING ∈ (controlTick L P i s).2.2) :
    Effect.runRecovery ∉ (controlTick L P i s).2.2
      ∧ (controlTick L P i s).1.state = NavState.PLANNING
      ∧ ∃ pre post, (controlTick L P i s).2.2
          = pre ++ [Effect.writeState NavState.CLEARING, Effect.writeState NavState.PLANNING]
            ++ post := by
  have hcase : s.state = NavState.CONTROLLING ∧ i.goalReached = false ∧ i.cmd_vel = none
      ∧ i.now > P.time_default + P.controller_patience_ := by
    revert h
    unfold controlTick tickBody
    cases hge : L.ge (distance L i.current_position s.oscillation_pose_)
      P.oscillation_distance_ <;>
      cases hs : s.state <;> cases hg : i.goalReached <;> cases hc : i.cmd_vel <;>
      by_cases hn : i.now > P.time_default + P.controller_patience_ <;>
      simp [hs, hg, hn, resetState, publishZeroVelocity]
  obtain ⟨hs, hg, hc, hn⟩ := hcase
  obtain ⟨htr, hst⟩ := controlTick_velocity_failure L P i s hs hg hc
  rw [if_pos hn] at htr
  refine ⟨?_, hst, ?_⟩
  · rw [htr]; simp
  · exact ⟨[Effect.getRobotPose, Effect.readState, Effect.isGoalReached,
        Effect.computeVelocityCommands, Effect.publish L.zero L.zero L.zero],
      [Effect.publish L.zero L.zero L.zero, Effect.sleep], by rw [htr]; rfl⟩

/-- Claim C5, evaluated at the failing input: a `CONTROLLING` tick at time 101 with
patience 5 in which `computeVelocityCommands` fails writes `CLEARING` and leaves it
without a call of `runRecovery`. -/
theorem clearing_left_without_recovery_witness :
    Effect.writeState NavState.CLEARING ∈
        (controlTick fixedLib params5 (tickNoVelocity 101) navControlling).2.2
      ∧ Effect.runRecovery ∉
        (controlTick fixedLib params5 (tickNoVelocity 101) navControlling).2.2
      ∧ (controlTick fixedLib params5 (tickNoVelocity 101) navControlling).1.state
        = NavState.PLANNING :=
  ⟨by decide,
    (clearing_left_without_recovery fixedLib params5 (tickNoVelocity 101) navControlling
      (by decide)).1,
    (clearing_left_without_recovery fixedLib params5 (tickNoVelocity 101) navControlling
      (by decide)).2.1⟩

/-- Claim C4 as stated fails: when the local planner rejects the plan, the handling is
`resetState`, whose write of `state` comes before its zero publication. -/
theorem stop_precedes_transition_counterexample :
    (controlLoopStep fixedLib params5 false (tickOk 1) CtlPc.top navControlling).2.2
        = [Effect.lock Mutex.controller_mutex, Effect.readState, Effect.planSize,
            Effect.unlock Mutex.controller_mutex, Effect.setPlan [aheadPose],
            Effect.writeState NavState.PLANNING, Effect.publish (some 0) (some 0) (some 0)]
      ∧ zeroBeforeFirstWrite fixedLib
        (controlLoopStep fixedLib params5 false (tickOk 1) CtlPc.top navControlling).2.2
        = false := by
  decide

/-- Claim C4, amended.  When `computeVelocityCommands` fails in a `CONTROLLING` tick, in
either patience branch, the zero velocity is published before the first write to
`state`.  When `setPlan` rejects the plan, the effects after the `setPlan` call are the
write `state = PLANNING` followed by the zero publication. -/
theorem stop_on_control_failure {α : Type} [DecidableEq α] (L : NumLib α) (P : Params α)
    (i : TickIn α) (s : Nav α) (hs : s.state = NavState.CONTROLLING) :
    (i.goalReached = false → i.cmd_vel = none →
        zeroBeforeFirstWrite L (controlTick L P i s).2.2 = true)
      ∧ (s.running = true → s.global_planner_plan ≠ [] →
        (controlLoopStep L P false i CtlPc.top s).2.2
            = [Effect.lock Mutex.controller_mutex, Effect.readState, Effect.planSize,
                Effect.unlock Mutex.controller_mutex, Effect.setPlan s.global_planner_plan,
                Effect.writeState NavState.PLANNING, Effect.publish L.zero L.zero L.zero]
          ∧ (controlLoopStep L P false i CtlPc.waiting s).2.2
            = [Effect.readState, Effect.planSize,
                Effect.unlock Mutex.controller_mutex, Effect.setPlan s.global_planner_plan,
                Effect.writeState NavState.PLANNING, Effect.publish L.zero L.zero L.zero])
          := by
  constructor
  · intro hg hc
    rw [(controlTick_velocity_failure L P i s hs hg hc).1]
    simp [zeroBeforeFirstWrite, isZeroPublish, isStateWrite]
  · intro hr hp
    simp [controlLoopStep, controlLoopWait, hr, hs, hp, resetState, publishZeroVelocity]

/-- Claim C4 amended, instances: a failing tick within the patience, a failing tick
beyond it, and a rejected plan. -/
theorem stop_on_control_failure_witness :
    zeroBeforeFirstWrite fixedLib
        (controlTick fixedLib params5 (tickNoVelocity 3) navControlling).2.2 = true
      ∧ zeroBeforeFirstWrite fixedLib
        (controlTick fixedLib params5 (tickNoVelocity 101) navControlling).2.2 = true
      ∧ (controlLoopStep fixedLib params5 false (tickOk 1) CtlPc.waiting navControlling).2.2
        = [Effect.readState, Effect.planSize,
            Effect.unlock Mutex.controller_mutex, Effect.setPlan navControlling.global_planner_plan,
            Effect.writeState NavState.PLANNING,
            Effect.publish fixedLib.zero fixedLib.zero fixedLib.zero] :=
  ⟨(stop_on_control_failure fixedLib params5 (tickNoVelocity 3) navControlling rfl).1 rfl rfl,
    (stop_on_control_failure fixedLib params5 (tickNoVelocity 101) navControlling rfl).1 rfl rfl,
    ((stop_on_control_failure fixedLib params5 (tickOk 1) navControlling rfl).2 rfl
      (by decide)).2⟩

/-! ## Failed planning attempts -/

/-- Claim C2 as stated fails when the prior `state` is `PLANNING`.  First run: a new goal
arrives while a plan is followed (so `state = PLANNING` with the old plan still
active) and the pose is unavailable; the attempt fails, yet `state` becomes
`CONTROLLING` and the active plan is replaced by the empty scratch plan.  Second run
(scenario B): from startup a goal is admitted and the planner returns an empty plan;
`makePlan` fails and `state` goes from `PLANNING` to `CONTROLLING`. -/
theorem failed_attempt_counterexample :
    ((goalCallback fixedLib none none aheadPose navControlling).1.state = NavState.PLANNING
        ∧ (goalCallback fixedLib none none aheadPose navControlling).1.global_planner_plan
          = [aheadPose]
        ∧ (makePlan none plannerFails
            (goalCallback fixedLib none none aheadPose navControlling).1.goal).1 = false
        ∧ (planLoopStep fixedLib params5 none plannerFails PlanPc.top
            (goalCallback fixedLib none none aheadPose navControlling).1).1.state
          = NavState.CONTROLLING
        ∧ (planLoopStep fixedLib params5 none plannerFails PlanPc.top
            (goalCallback fixedLib none none aheadPose navControlling).1).1.global_planner_plan
          = [])
      ∧ ((goalCallback fixedLib none none aheadPose (startup originPose originPose)).1.state
          = NavState.PLANNING
        ∧ (makePlan (some originPose) plannerEmpty aheadPose).1 = false
        ∧ (planLoopStep fixedLib params5 (some originPose) plannerEmpty PlanPc.top
            (goalCallback fixedLib none none aheadPose
              (startup originPose originPose)).1).1.state
          = NavState.CONTROLLING) := by
  decide

/-- A planning step that reaches `makePlan`, with `makePlan` failing while `state` is
not `PLANNING`: the members after it, the position of the thread, and the absence
of hand-off effects. -/
theorem planLoopStep_failure_outside_planning {α : Type} (L : NumLib α) (P : Params α)
    (pose : Option (PoseStamped α))
    (planner : PoseStamped α → PoseStamped α → Bool × List (PoseStamped α))
    (pc : PlanPc) (s : Nav α) (hpc : pc ≠ PlanPc.quit) (hr : s.running = true)
    (ht : s.new_goal_trigger = true) (hf : (makePlan pose planner s.goal).1 = false)
    (hs : s.state ≠ NavState.PLANNING) :
    (planLoopStep L P pose planner pc s).1
        = { s with new_goal_trigger := false,
                   latest_plan := (makePlan pose planner s.goal).2.1 }
      ∧ (planLoopStep L P pose planner pc s).2.1 = PlanPc.top
      ∧ ∀ e ∈ (planLoopStep L P pose planner pc s).2.2, isHandoff e = false := by
  have hmk : ∀ e ∈ (makePlan pose planner s.goal).2.2, isHandoff e = false := by
    cases pose with
    | none => simp [makePlan, isHandoff]
    | some start =>
      unfold makePlan
      simp only []
      split <;> simp [isHandoff]
  have hbody : planLoopBody L P pose planner s
      = ({ s with new_goal_trigger := false, latest_plan := (makePlan pose planner s.goal).2.1 },
          [Effect.writeTrigger false, Effect.readGoal] ++ (makePlan pose planner s.goal).2.2
            ++ [Effect.readState]) := by
    simp [planLoopBody, hf, hs]
  cases pc with
  | quit => exact absurd rfl hpc
  | top =>
    simp only [planLoopStep, planLoopWait, hr, ht, hbody]
    simp [isHandoff]
    intro e he
    rcases he with he | he
    · exact hmk e he
    · subst he; rfl
  | waiting =>
    simp only [planLoopStep, planLoopWait, hr, ht, hbody]
    simp [isHandoff]
    intro e he
    rcases he with he | he
    · exact hmk e he
    · subst he; rfl

/-- A planning step that reaches `makePlan`, with `makePlan` failing while `state` is
`PLANNING`, goes on to the hand-off with the content of the scratch plan. -/
theorem planLoopStep_failure_in_planning {α : Type} (L : NumLib α) (P : Params α)
    (pose : Option (PoseStamped α))
    (planner : PoseStamped α → PoseStamped α → Bool × List (PoseStamped α))
    (pc : PlanPc) (s : Nav α) (hpc : pc ≠ PlanPc.quit) (hr : s.running = true)
    (ht : s.new_goal_trigger = true) (hs : s.state = NavState.PLANNING) :
    (planLoopStep L P pose planner pc s).1
        = { s with new_goal_trigger := false
                   latest_plan := (makePlan pose planner s.goal).2.1
                   state := NavState.CONTROLLING
                   global_planner_plan := (makePlan pose planner s.goal).2.1 }
      ∧ (planLoopStep L P pose planner pc s).2.1 = PlanPc.top := by
  cases pc <;> simp_all [planLoopStep, planLoopWait, planLoopBody]

/-- Claim C2, amended to a prior `state` other than `PLANNING`.  Let a planning step reach
`makePlan` and let `makePlan` fail while `state` is `CONTROLLING` or `CLEARING`.  Then
after the step `state` and the active plan are unchanged, the trigger is consumed, no
hand-off effect (write of `state`, write of the active plan, signal on
`controller_cond`) has occurred, the thread is back at the head of its loop, and its
next step, absent a new goal, enters the timed wait without changing anything. -/
theorem failed_attempt_outside_planning {α : Type} (L : NumLib α) (P : Params α)
    (pose : Option (PoseStamped α))
    (planner : PoseStamped α → PoseStamped α → Bool × List (PoseStamped α))
    (pc : PlanPc) (s : Nav α) (hpc : pc ≠ PlanPc.quit) (hr : s.running = true)
    (ht : s.new_goal_trigger = true) (hf : (makePlan pose planner s.goal).1 = false)
    (hs : s.state ≠ NavState.PLANNING) :
    (planLoopStep L P pose planner pc s).1.state = s.state
      ∧ (planLoopStep L P pose planner pc s).1.global_planner_plan = s.global_planner_plan
      ∧ (planLoopStep L P pose planner pc s).1.new_goal_trigger = false
      ∧ (planLoopStep L P pose planner pc s).2.1 = PlanPc.top
      ∧ (∀ e ∈ (planLoopStep L P pose planner pc s).2.2, isHandoff e = false)
      ∧ ∀ pose2 planner2,
          (planLoopStep L P pose2 planner2 PlanPc.top
              (planLoopStep L P pose planner pc s).1).2.1 = PlanPc.waiting
            ∧ (planLoopStep L P pose2 planner2 PlanPc.top
              (planLoopStep L P pose planner pc s).1).1
              = (planLoopStep L P pose planner pc s).1 := by
  obtain ⟨h1, h2, h3⟩ :=
    planLoopStep_failure_outside_planning L P pose planner pc s hpc hr ht hf hs
  refine ⟨by rw [h1], by rw [h1], by rw [h1], h2, h3, ?_⟩
  intro pose2 planner2
  rw [h1]
  simp [planLoopStep, planLoopWait, hr]

/-- Claim C2 amended, an instance: a goal arrived while the previous attempt was being
handed off, so the trigger is set and `state` is `CONTROLLING`; the pose is
unavailable; the plan being followed stays in place. -/
theorem failed_attempt_outside_planning_witness :
    (planLoopStep fixedLib params5 none plannerFails PlanPc.waiting
        { navControlling with new_goal_trigger := true }).1.state = NavState.CONTROLLING
      ∧ (planLoopStep fixedLib params5 none plannerFails PlanPc.waiting
        { navControlling with new_goal_trigger := true }).1.global_planner_plan = [aheadPose]
      ∧ (planLoopStep fixedLib params5 none plannerFails PlanPc.waiting
        { navControlling with new_goal_trigger := true }).1.new_goal_trigger = false
      ∧ (planLoopStep fixedLib params5 none plannerFails PlanPc.waiting
        { navControlling with new_goal_trigger := true }).2.1 = PlanPc.top :=
  have h := failed_attempt_outside_planning fixedLib params5 none plannerFails PlanPc.waiting
    { navControlling with new_goal_trigger := true } (by decide) rfl rfl (by decide)
    (by decide)
  ⟨h.1, h.2.1, h.2.2.1, h.2.2.2.1⟩

/-! ## The hand-off invariant -/

/-- The attempt and the hand-off run back to back are the loop body of `planLoop`. -/
theorem planLoopBody_eq_attempt_handoff {α : Type} (L : NumLib α) (P : Params α)
    (pose : Option (PoseStamped α))
    (planner : PoseStamped α → PoseStamped α → Bool × List (PoseStamped α)) (s : Nav α) :
    planLoopBody L P pose planner s
      = if (planLoopAttempt pose planner s).2.1 then
          ((planLoopHandoff L P (planLoopAttempt pose planner s).1).1,
            (planLoopAttempt pose planner s).2.2
              ++ (planLoopHandoff L P (planLoopAttempt pose planner s).1).2)
        else
          ((planLoopAttempt pose planner s).1, (planLoopAttempt pose planner s).2.2) := by
  unfold planLoopBody planLoopAttempt planLoopHandoff
  cases hok : (makePlan pose planner s.goal).1 <;> cases hs : s.state <;> simp [hok, hs]

/-- The wait with its unlock followed at once by the hand-over is the step
`controlLoopWait` of the control thread. -/
theorem controlLoopWait_eq_wait_handover {α : Type} (L : NumLib α) (ok : Bool)
    (pre : List (Effect α)) (s : Nav α) :
    (controlLoopWait L ok pre s).1
        = (if (controlLoopFineWait pre s).2.1 = FineCtlPc.handover then
            (controlLoopHandover L ok (controlLoopFineWait pre s).1).1
          else (controlLoopFineWait pre s).1)
      ∧ (controlLoopWait L ok pre s).2.2
        = (if (controlLoopFineWait pre s).2.1 = FineCtlPc.handover then
            (controlLoopFineWait pre s).2.2
              ++ (controlLoopHandover L ok (controlLoopFineWait pre s).1).2.2
          else (controlLoopFineWait pre s).2.2) := by
  cases hpl : s.global_planner_plan <;> cases hs : s.state <;> cases hr : s.running <;>
    cases ok <;>
    simp [controlLoopWait, controlLoopFineWait, controlLoopHandover, hpl, hs, hr, resetState]

/-- The check `guardedBy` on a concatenation: the second part starts with the mutexes
held after the first. -/
theorem guardedBy_append {α : Type} (m : Mutex) (p : Effect α → Bool) (a b : List (Effect α)) :
    ∀ held, guardedBy m p held (a ++ b)
      = (guardedBy m p held a && guardedBy m p (a.foldl heldAfter held) b) := by
  induction a with
  | nil => intro held; simp [guardedBy]
  | cons e es ih => intro held; simp [guardedBy, ih, Bool.and_assoc]

/-- The check `outsideOf` on a concatenation. -/
theorem outsideOf_append {α : Type} (m : Mutex) (p : Effect α → Bool) (a b : List (Effect α)) :
    ∀ held, outsideOf m p held (a ++ b)
      = (outsideOf m p held a && outsideOf m p (a.foldl heldAfter held) b) := by
  induction a with
  | nil => intro held; simp [outsideOf]
  | cons e es ih => intro held; simp [outsideOf, ih, Bool.and_assoc]

/-- The path request neither writes `state` nor touches the active plan, and it
releases the costmap mutex it takes. -/
theorem makePlan_locks {α : Type} (pose : Option (PoseStamped α))
    (planner : PoseStamped α → PoseStamped α → Bool × List (PoseStamped α))
    (goal : PoseStamped α) (held : List Mutex) :
    guardedBy Mutex.controller_mutex isStateWriteOrPlanAccess held
        (makePlan pose planner goal).2.2 = true
      ∧ (makePlan pose planner goal).2.2.foldl heldAfter held = held := by
  cases pose with
  | none =>
    simp [makePlan, guardedBy, heldAfter, isStateWriteOrPlanAccess, isStateWrite, isPlanAccess]
  | some start =>
    unfold makePlan
    simp only []
    split <;>
      simp [guardedBy, heldAfter, isStateWriteOrPlanAccess, isStateWrite, isPlanAccess]

/-- In a step of the planning thread, every write to `state` and every access to the
active plan happens while `controller_mutex` is held. -/
theorem planLoopStep_guarded {α : Type} (L : NumLib α) (P : Params α)
    (pose : Option (PoseStamped α))
    (planner : PoseStamped α → PoseStamped α → Bool × List (PoseStamped α))
    (pc : PlanPc) (s : Nav α) :
    guardedBy Mutex.controller_mutex isStateWriteOrPlanAccess pc.held
      (planLoopStep L P pose planner pc s).2.2 = true := by
  have hm := makePlan_locks pose planner s.goal
  cases pc <;> cases hr : s.running <;> cases ht : s.new_goal_trigger <;>
    cases hok : (makePlan pose planner s.goal).1 <;> cases hs : s.state <;>
    cases hne : L.ne P.planner_frequency_ L.zero <;>
    simp [planLoopStep, planLoopWait, planLoopBody, PlanPc.held, hr, ht, hok, hs, hne,
      guardedBy_append, guardedBy, heldAfter, hm, isStateWriteOrPlanAccess, isStateWrite,
      isPlanAccess]

/-- In a step of the control thread, the size of the active plan is read only while
`controller_mutex` is held, and every write to `state` and every hand-over of the
plan to `setPlan` happens while `controller_mutex` is not held. -/
theorem controlLoopStep_locks {α : Type} (L : NumLib α) (P : Params α) (ok : Bool)
    (i : TickIn α) (pc : CtlPc) (s : Nav α) :
    guardedBy Mutex.controller_mutex isPlanSizeRead pc.held
        (controlLoopStep L P ok i pc s).2.2 = true
      ∧ outsideOf Mutex.controller_mutex isStateWriteOrSetPlan pc.held
        (controlLoopStep L P ok i pc s).2.2 = true := by
  cases pc with
  | ticking =>
    simp only [controlLoopStep_ticking, controlTick, tickBody, CtlPc.held]
    cases hge : L.ge (distance L i.current_position s.oscillation_pose_)
      P.oscillation_distance_ <;>
      cases hs : s.state <;> cases hg : i.goalReached <;> cases hc : i.cmd_vel <;>
      simp [hs, hg, resetState, publishZeroVelocity, guardedBy, outsideOf, heldAfter,
        isPlanSizeRead, isStateWriteOrSetPlan] <;>
      split <;>
      simp [guardedBy, outsideOf, heldAfter, isPlanSizeRead, isStateWriteOrSetPlan]
  | quit => simp [controlLoopStep, guardedBy, outsideOf]
  | top =>
    cases hpl : s.global_planner_plan <;> cases hs : s.state <;> cases hr : s.running <;>
      cases ok <;>
      simp [controlLoopStep, controlLoopWait, CtlPc.held, hpl, hs, hr, resetState,
        publishZeroVelocity, guardedBy, outsideOf, heldAfter, isPlanSizeRead,
        isStateWriteOrSetPlan]
  | waiting =>
    cases hpl : s.global_planner_plan <;> cases hs : s.state <;> cases hr : s.running <;>
      cases ok <;>
      simp [controlLoopStep, controlLoopWait, CtlPc.held, hpl, hs, hr, resetState,
        publishZeroVelocity, guardedBy, outsideOf, heldAfter, isPlanSizeRead,
        isStateWriteOrSetPlan]

/-- The goal callback writes `state` while `planner_mutex` is held and
`controller_mutex` is not. -/
theorem goalCallback_locks {α : Type} (L : NumLib α) (odom map : Option (Transform α))
    (g : PoseStamped α) (s : Nav α) :
    guardedBy Mutex.planner_mutex isStateWrite [] (goalCallback L odom map g s).2 = true
      ∧ outsideOf Mutex.controller_mutex isStateWrite [] (goalCallback L odom map g s).2
        = true := by
  unfold goalCallback
  split
  · simp [guardedBy, outsideOf]
  · cases odom <;> cases map <;>
      simp [goalToGlobalFrame, guardedBy, outsideOf, heldAfter, isStateWrite]

/-- Claim C6 as stated fails.  With a valid goal, `goalCallback` writes `state` without
holding `controller_mutex`; the control thread hands the plan to `setPlan` after it has
released `controller_mutex`; and a tick writes `state` with no mutex held. -/
theorem lock_discipline_counterexample :
    guardedBy Mutex.controller_mutex isStateWriteOrPlanAccess []
        (goalCallback fixedLib none none aheadPose navControlling).2 = false
      ∧ (controlLoopStep fixedLib params5 true (tickOk 1) CtlPc.top navControlling).2.2
        = [Effect.lock Mutex.controller_mutex, Effect.readState, Effect.planSize,
            Effect.unlock Mutex.controller_mutex, Effect.setPlan [aheadPose]]
      ∧ guardedBy Mutex.controller_mutex isStateWriteOrPlanAccess CtlPc.top.held
        (controlLoopStep fixedLib params5 true (tickOk 1) CtlPc.top navControlling).2.2 = false
      ∧ guardedBy Mutex.controller_mutex isStateWriteOrPlanAccess CtlPc.ticking.held
        (controlLoopStep fixedLib params5 true (tickGoalReached 1) CtlPc.ticking
          navControlling).2.2 = false := by
  decide

/-- Claim C6, amended.  In `planLoop`, every write to `state` and every access to the
active plan (the clear and the bulk-assign of the hand-off) happens while
`controller_mutex` is held.  In `controlLoop`, the size of the active plan is read (in
the wait predicate) only while `controller_mutex` is held, whereas every write to
`state` and the hand-over of the plan to `setPlan` happen while it is not held.  In
`goalCallback`, `state` is written while `planner_mutex` is held and `controller_mutex`
is not. -/
theorem lock_discipline_amended {α : Type} (L : NumLib α) (P : Params α) :
    (∀ (pose : Option (PoseStamped α))
        (planner : PoseStamped α → PoseStamped α → Bool × List (PoseStamped α))
        (pc : PlanPc) (s : Nav α),
        guardedBy Mutex.controller_mutex isStateWriteOrPlanAccess pc.held
          (planLoopStep L P pose planner pc s).2.2 = true)
      ∧ (∀ (ok : Bool) (i : TickIn α) (pc : CtlPc) (s : Nav α),
        guardedBy Mutex.controller_mutex isPlanSizeRead pc.held
            (controlLoopStep L P ok i pc s).2.2 = true
          ∧ outsideOf Mutex.controller_mutex isStateWriteOrSetPlan pc.held
            (controlLoopStep L P ok i pc s).2.2 = true)
      ∧ (∀ (odom map : Option (Transform α)) (g : PoseStamped α) (s : Nav α),
        guardedBy Mutex.planner_mutex isStateWrite [] (goalCallback L odom map g s).2 = true
          ∧ outsideOf Mutex.controller_mutex isStateWrite [] (goalCallback L odom map g s).2
            = true) :=
  ⟨planLoopStep_guarded L P, controlLoopStep_locks L P, goalCallback_locks L⟩

/-! ## The tilt test of `isQuaternionValid` over the real numbers -/

end NS_Navigation
